import Mathlib

/-
Shallow embedding of the two-tier LLM translation utility:
the Translation Gateway (src/back/api.py) and the Translator Form
(src/front/streamlit.py). Definitions follow the source line by line;
the theorems below settle the specification claims against them.
-/

namespace Translator

/-- A chat message in the provider request body (src/back/api.py lines 70-73). -/
structure ChatMessage where
  role : String
  content : String
deriving Repr, DecidableEq

/-- Pydantic request model LanguageTranslation (src/back/api.py lines 39-42).
Internal field names are content, from_lang, to_lang; the wire aliases are
text, source_language, target_language. -/
structure LanguageTranslation where
  content : String
  from_lang : String
  to_lang : String
deriving Repr, DecidableEq

/-- Pydantic response model TranslationResult (src/back/api.py lines 45-48). -/
structure TranslationResult where
  translation : String
  source : String
  target : String
deriving Repr, DecidableEq

/-- The message object inside one provider choice; the content key may be
absent from the JSON. -/
structure ProviderMessage where
  content : Option String
deriving Repr, DecidableEq

/-- One element of the choices array; the message key may be absent. -/
structure ProviderChoice where
  message : Option ProviderMessage
deriving Repr, DecidableEq

/-- JSON body of a 2xx provider response; the choices key may be absent
(none) or hold a possibly empty array. -/
structure ProviderBody where
  choices : Option (List ProviderChoice)
deriving Repr, DecidableEq

/-- Outcome of the outbound POST inside fetch_llm_response, exactly as the
code distinguishes cases: httpx.RequestError (connection refused, DNS
failure, or the 60-second timeout elapsing) at lines 89-94, a non-2xx
response raised by raise_for_status at lines 96-101, or a 2xx response
whose parsed JSON body is carried along. -/
inductive ProviderOutcome where
  | networkError
  | httpError (statusCode : Nat)
  | success (body : ProviderBody)
deriving Repr, DecidableEq

/-- The character set of the strip call at line 87: double quote, single
quote, space, newline. -/
def stripCharSet : List Char := ['"', '\x27', ' ', '\n']

/-- Remove, from the front and from the back of a list, the longest runs of
characters satisfying p; interior characters are untouched. -/
def pyStripList (p : Char → Bool) (l : List Char) : List Char :=
  ((l.dropWhile p).reverse.dropWhile p).reverse

/-- Python str.strip with the char set of line 87. -/
def pyStrip (s : String) : String :=
  String.mk (pyStripList (fun c => decide (c ∈ stripCharSet)) s.data)

/-- Line 87: the chain of JSON lookups choices, index 0, message, content.
Each lookup can fail with an uncaught KeyError or IndexError whose Python
str() rendering is recorded as the error string; on success the extracted
string is stripped. -/
def extract_content (body : ProviderBody) : Except String String :=
  match body.choices with
  | none => .error "\x27choices\x27"
  | some [] => .error "list index out of range"
  | some (choice :: _) =>
    match choice.message with
    | none => .error "\x27message\x27"
    | some msg =>
      match msg.content with
      | none => .error "\x27content\x27"
      | some text => .ok (pyStrip text)

/-- An exception escaping fetch_llm_response: one of the two HTTPExceptions
it raises (lines 89-101), or a lookup error from line 87 that neither
except clause catches (KeyError and IndexError are not httpx errors). -/
inductive FetchError where
  | httpException (status_code : Nat) (detail : String)
  | lookupError (msg : String)
deriving Repr, DecidableEq

/-- The messages array of the provider request body (lines 68-75): exactly
two messages, the system instruction then the raw user input. -/
def fetch_request_messages (instruction user_input : String) : List ChatMessage :=
  [⟨"system", instruction⟩, ⟨"user", user_input⟩]

/-- fetch_llm_response (lines 51-101), given the outcome of the outbound
POST: a network-level failure raises HTTPException 503 "LLM service
unavailable"; a non-2xx provider response raises HTTPException carrying the
provider status code and a generic detail; a 2xx response yields the
extracted, stripped content, with lookup failures propagating uncaught. -/
def fetch_llm_response (outcome : ProviderOutcome) : Except FetchError String :=
  match outcome with
  | .networkError => .error (.httpException 503 "LLM service unavailable")
  | .httpError code => .error (.httpException code "Error processing translation request")
  | .success body =>
    match extract_content body with
    | .ok text => .ok text
    | .error msg => .error (.lookupError msg)

/-- Python str() of the exception caught at line 127: a Starlette
HTTPException renders as its status code, a colon and space, then its
detail; a KeyError or IndexError renders as its message. -/
def fetch_error_str : FetchError → String
  | .httpException code detail => toString code ++ ": " ++ detail
  | .lookupError msg => msg

/-- The HTTP error response the Gateway returns to its caller, as raised by
the HTTPException at lines 129-132. -/
structure HTTPError where
  status_code : Nat
  detail : String
deriving Repr, DecidableEq

/-- The system instruction built at lines 111-114. Note the trailing blank
line of the second f-string. -/
def system_message (d : LanguageTranslation) : String :=
  "Translate this text from " ++ d.from_lang ++ " to " ++ d.to_lang ++
    ". Maintain original style, line breaks, emojis and punctuation.\n\n"

/-- process_translation (lines 109-132). The call to fetch_llm_response sits
inside a try block whose except Exception clause (line 127) also catches the
HTTPExceptions raised inside fetch_llm_response, because HTTPException is a
subclass of Exception: every failure, whatever its original status code, is
rewrapped as a 500 whose detail embeds the stringified original error. -/
def process_translation (d : LanguageTranslation) (outcome : ProviderOutcome) :
    Except HTTPError TranslationResult :=
  match fetch_llm_response outcome with
  | .ok translated => .ok ⟨translated, d.from_lang, d.to_lang⟩
  | .error e => .error ⟨500, "Translation failed: " ++ fetch_error_str e⟩

/-- The payload of the health endpoint (lines 141-145). -/
structure HealthPayload where
  service : String
  status : String
  version : String
deriving Repr, DecidableEq

/-- service_health_check (lines 139-145): a constant payload; the handler
reads no state, writes no state, and takes no input. -/
def service_health_check : HealthPayload :=
  ⟨"language-translator", "operational", "1.0.0"⟩

/-- The status code declared for the health route (line 136). -/
def health_status_code : Nat := 200

/-- Python truthiness of the string read from the environment, as tested at
line 35: None and the empty string are falsy. -/
def py_str_falsy : Option String → Bool
  | none => true
  | some s => s.isEmpty

/-- The startup credential guard (lines 33-36): AUTH_TOKEN is read from the
environment (none when the variable is absent); a falsy value raises
RuntimeError at module import, before any request is served. -/
def startup_auth_check (api_key : Option String) : Except String String :=
  if py_str_falsy api_key then .error "Authorization token is required"
  else .ok (api_key.getD "")

/-- The JSON body the form posts to the translate endpoint
(src/front/streamlit.py lines 72-80), as ordered key-value pairs. -/
def front_post_body (source_text from_sel to_sel : String) : List (String × String) :=
  [("content", source_text), ("from_lang", from_sel), ("to_lang", to_sel)]

/-- The wire field names the Gateway request model accepts: the pydantic
aliases of LanguageTranslation (src/back/api.py lines 39-42). -/
def gateway_wire_fields : List String :=
  ["text", "source_language", "target_language"]

/-- How the Gateway request model reads a JSON body: pydantic populates each
aliased field by its alias only (population by internal field name is not
enabled on the model), so all three alias keys must be present. -/
def languageTranslation_parse (body : List (String × String)) : Option LanguageTranslation :=
  match body.lookup "text", body.lookup "source_language", body.lookup "target_language" with
  | some t, some s, some g => some ⟨t, s, g⟩
  | _, _, _ => none

/-- What a single click of the Translate button does
(src/front/streamlit.py lines 67-107): either one outbound POST or a
validation warning. -/
inductive ClickBehavior where
  | callsBackend (body : List (String × String))
  | warnsEmptyInput (msg : String)
deriving Repr, DecidableEq

/-- The Translate button handler (lines 67-107): when source_text is truthy
(non-empty) it posts the request body; otherwise it shows the warning and
performs no call. -/
def translate_click (source_text from_sel to_sel : String) : ClickBehavior :=
  if source_text.isEmpty then
    .warnsEmptyInput "Please enter text to translate"
  else
    .callsBackend (front_post_body source_text from_sel to_sel)

/-- Number of outbound translate calls one click behavior performs. -/
def outbound_calls : ClickBehavior → Nat
  | .callsBackend _ => 1
  | .warnsEmptyInput _ => 0

/-- A well-shaped 2xx provider body whose first choice carries the given
assistant content. -/
def providerBodyWith (text : String) : ProviderBody :=
  ⟨some [⟨some ⟨some text⟩⟩]⟩

end Translator

namespace Translator

/-- Shared helper: stripping removes characters only from the two edges, and
every removed character satisfies the strip predicate; the interior is the
result itself, unchanged. -/
theorem pyStripList_decomp (p : Char → Bool) (l : List Char) :
    ∃ pre post, l = pre ++ pyStripList p l ++ post ∧
      (∀ c ∈ pre, p c) ∧ (∀ c ∈ post, p c) := by
  refine ⟨l.takeWhile p, ((l.dropWhile p).reverse.takeWhile p).reverse, ?_, ?_, ?_⟩
  · conv_lhs => rw [← List.takeWhile_append_dropWhile p l]
    rw [List.append_assoc]
    congr 1
    unfold pyStripList
    conv_lhs => rw [← List.reverse_reverse (l.dropWhile p),
      ← List.takeWhile_append_dropWhile p (l.dropWhile p).reverse]
    rw [List.reverse_append]
  · intro c hc
    exact List.mem_takeWhile_imp hc
  · intro c hc
    rw [List.mem_reverse] at hc
    exact List.mem_takeWhile_imp hc

/-- C1: the claim says a non-success provider status (for example 429) is
returned to the caller unchanged. The code instead rewraps the HTTPException
carrying that status inside the except Exception clause of
process_translation, so the caller receives 500, not 429, with the original
status only embedded in the detail text. This theorem evaluates the embedded
code at the failing input. -/
theorem provider_429_is_rewrapped_as_500 :
    process_translation ⟨"Hello", "English", "Russian"⟩ (.httpError 429) =
      .error ⟨500, "Translation failed: 429: Error processing translation request"⟩ := by
  rfl

/-- C2: the claim says a network-level failure (connection refused, DNS
failure, the 60-second timeout) surfaces to the caller as 503 service
unavailable. The code raises HTTPException 503 inside fetch_llm_response,
but the except Exception clause of process_translation catches it and
rewraps it, so the caller receives 500. This theorem evaluates the embedded
code at the failing input. -/
theorem network_error_is_rewrapped_as_500 :
    process_translation ⟨"Hello", "English", "Russian"⟩ .networkError =
      .error ⟨500, "Translation failed: 503: LLM service unavailable"⟩ := by
  rfl

/-- C3: whenever translate succeeds, the source and target fields of the
returned TranslationResult equal the request language fields unchanged. -/
theorem translate_source_target_passthrough (d : LanguageTranslation)
    (outcome : ProviderOutcome) (r : TranslationResult)
    (h : process_translation d outcome = .ok r) :
    r.source = d.from_lang ∧ r.target = d.to_lang := by
  unfold process_translation at h
  cases hf : fetch_llm_response outcome with
  | ok t =>
    rw [hf] at h
    simp only [Except.ok.injEq] at h
    rw [← h]
    exact ⟨rfl, rfl⟩
  | error e =>
    rw [hf] at h
    simp at h

/-- C3 witness: a concrete successful request on which the hypothesis holds
by computation. -/
theorem translate_source_target_passthrough_witness :
    (⟨"Привет", "English", "Russian"⟩ : TranslationResult).source = "English" ∧
    (⟨"Привет", "English", "Russian"⟩ : TranslationResult).target = "Russian" :=
  translate_source_target_passthrough ⟨"Hello", "English", "Russian"⟩
    (.success (providerBodyWith "Привет")) ⟨"Привет", "English", "Russian"⟩ (by rfl)

/-- C4: the health operation returns status 200 with exactly the fixed
payload; it takes no input and reads no state, so no provider state or prior
request can affect it, and it has no side effects. -/
theorem health_constant_payload :
    service_health_check = ⟨"language-translator", "operational", "1.0.0"⟩ ∧
    health_status_code = 200 :=
  ⟨rfl, rfl⟩

/-- C5: the claim says the form posts a body using the wire alias field
names text, source_language, target_language. The form actually posts the
internal names content, from_lang, to_lang, which are not the aliases and
which the Gateway request model fails to parse. This theorem evaluates the
embedded code at the failing input. -/
theorem form_body_uses_internal_names_and_parse_fails :
    (front_post_body "Hello" "English" "Russian").map Prod.fst =
      ["content", "from_lang", "to_lang"] ∧
    (front_post_body "Hello" "English" "Russian").map Prod.fst ≠ gateway_wire_fields ∧
    languageTranslation_parse (front_post_body "Hello" "English" "Russian") = none := by
  refine ⟨rfl, ?_, rfl⟩
  decide

/-- C6: when the credential is absent from the environment, the startup
guard raises a fatal RuntimeError before the service handles any request. -/
theorem missing_credential_aborts_startup :
    startup_auth_check none = .error "Authorization token is required" :=
  rfl

/-- C7: on a successful provider response, the translation field equals the
content of choices 0 message with the characters of the strip set (double
quote, single quote, space, newline) removed from the edges only, the
interior unchanged; in particular the stubbed content Привет yields the
translation Привет with source English and target Russian. -/
theorem translation_strips_edges_only (d : LanguageTranslation) (text : String) :
    process_translation d (.success (providerBodyWith text)) =
      .ok ⟨pyStrip text, d.from_lang, d.to_lang⟩ ∧
    (∃ pre post, text.data = pre ++ (pyStrip text).data ++ post ∧
      (∀ c ∈ pre, c ∈ stripCharSet) ∧ (∀ c ∈ post, c ∈ stripCharSet)) ∧
    process_translation ⟨"Hello", "English", "Russian"⟩
        (.success (providerBodyWith "Привет")) =
      .ok ⟨"Привет", "English", "Russian"⟩ := by
  refine ⟨rfl, ?_, rfl⟩
  obtain ⟨pre, post, hsplit, hpre, hpost⟩ :=
    pyStripList_decomp (fun c => decide (c ∈ stripCharSet)) text.data
  exact ⟨pre, post, hsplit,
    fun c hc => of_decide_eq_true (hpre c hc),
    fun c hc => of_decide_eq_true (hpost c hc)⟩

/-- C8 counterexample: the system instruction sent to the provider is not
exactly the fixed template string, because the code appends two newline
characters to it. -/
theorem instruction_not_exactly_template :
    system_message ⟨"Hello", "English", "Russian"⟩ ≠
      "Translate this text from English to Russian. Maintain original style, line breaks, emojis and punctuation." := by
  decide

/-- C8 amended: the system instruction is exactly the fixed template with
the request language fields substituted, followed by two newline characters,
and the prompt consists of exactly two messages, this instruction as the
system message and the raw request content as the user message. -/
theorem prompt_is_template_plus_newlines_and_two_messages (d : LanguageTranslation) :
    system_message d =
      "Translate this text from " ++ d.from_lang ++ " to " ++ d.to_lang ++
        ". Maintain original style, line breaks, emojis and punctuation." ++ "\n\n" ∧
    fetch_request_messages (system_message d) d.content =
      [⟨"system", system_message d⟩, ⟨"user", d.content⟩] := by
  constructor
  · unfold system_message
    simp [String.append_assoc]
  · rfl

/-- C9: clicking Translate with an empty text field shows the validation
warning and performs zero outbound translate calls. -/
theorem empty_input_warns_and_no_call (from_sel to_sel : String) :
    translate_click "" from_sel to_sel =
      .warnsEmptyInput "Please enter text to translate" ∧
    outbound_calls (translate_click "" from_sel to_sel) = 0 :=
  ⟨rfl, rfl⟩

/-- C10: when a 2xx provider body is missing the expected shape, the lookup
failure is not turned into a distinct malformed-upstream error: it escapes
fetch_llm_response uncaught and process_translation surfaces it as a 500
whose detail embeds the stringified original error. -/
theorem malformed_body_surfaces_as_500 (d : LanguageTranslation)
    (body : ProviderBody) (msg : String)
    (h : extract_content body = .error msg) :
    process_translation d (.success body) =
      .error ⟨500, "Translation failed: " ++ msg⟩ := by
  simp only [process_translation, fetch_llm_response, h, fetch_error_str]

/-- C10 witness: a provider body with no choices key yields the 500 whose
detail embeds the stringified KeyError. -/
theorem malformed_body_surfaces_as_500_witness :
    process_translation ⟨"Hello", "English", "Russian"⟩ (.success ⟨none⟩) =
      .error ⟨500, "Translation failed: \x27choices\x27"⟩ :=
  malformed_body_surfaces_as_500 ⟨"Hello", "English", "Russian"⟩ ⟨none⟩
    "\x27choices\x27" rfl

end Translator
